import Mathlib

/-!
Verification of the two sentence-embedding scripts of this repository:
`create_embeddings.py` (the Batch Embedder) and `embed_query.py` (the Query
Embedder).  The scripts are shallowly embedded: JSON documents become the
inductive type `JSON`, Python dictionary access becomes association-list
lookup, the external sentence-transformer model (an opaque collaborator)
becomes a function parameter `encode`, and each script becomes a pure
function from its inputs (file contents, argument vector) to a record of
its observable effects (printed lines, output file, exit behaviour).
-/

/-- JSON values as loaded by `json.load`.  Python represents a JSON number
as a float; no claim computes with the numeric values, so they are
modelled opaquely by `Int`. -/
inductive JSON where
  | null : JSON
  | bool : Bool → JSON
  | num : Int → JSON
  | str : String → JSON
  | arr : List JSON → JSON
  | obj : List (String × JSON) → JSON
deriving Repr

/-- Python truthiness (`bool(x)`) for JSON-shaped values: `None`, `False`,
zero, the empty string, the empty list and the empty dict are falsy. -/
def truthy : JSON → Bool
  | JSON.null => false
  | JSON.bool b => b
  | JSON.num i => i != 0
  | JSON.str s => !(s == "")
  | JSON.arr xs => !xs.isEmpty
  | JSON.obj fs => !fs.isEmpty

/-- `d.get(key)` on a Python dict: the value at `key`, if present.  JSON
objects parsed from a file have unique keys; lookup takes the first
binding. -/
def lookupField : List (String × JSON) → String → Option JSON
  | [], _ => none
  | (k, v) :: rest, key => if k = key then some v else lookupField rest key

/-- `d[key] = v` on a Python dict: overwrite in place when the key exists
(keeping its position in the insertion order), otherwise append the new
binding at the end. -/
def setField : List (String × JSON) → String → JSON → List (String × JSON)
  | [], key, v => [(key, v)]
  | (k, w) :: rest, key, v =>
      if k = key then (key, v) :: rest else (k, w) :: setField rest key v

/-- `d[key] = v` lifted to JSON values; on a non-object it is unreachable
in the modelled runs and returns the value unchanged. -/
def setFieldJ : JSON → String → JSON → JSON
  | JSON.obj fs, key, v => JSON.obj (setField fs key v)
  | j, _, _ => j

/-- The text selected for one record by the Batch Embedder, from the source
line `paper.get('abstract') or paper.get('title', '')`.  A missing
`abstract` key yields Python `None` (modelled by `JSON.null`, which json
also decodes `null` to); the `or` falls through on any falsy value.
`none` (a record that is not a dict) models the `AttributeError` the
comprehension would raise. -/
def selectText : JSON → Option JSON
  | JSON.obj fs =>
      let a := (lookupField fs "abstract").getD JSON.null
      some (if truthy a then a else (lookupField fs "title").getD (JSON.str ""))
  | _ => none

/-- The list comprehension building `abstracts`: the selected text of each
record in order; `none` when some record is not a dict (the comprehension
raises). -/
def selectTexts : List JSON → Option (List JSON)
  | [] => some []
  | p :: ps =>
      match selectText p, selectTexts ps with
      | some t, some ts => some (t :: ts)
      | _, _ => none

/-- The model identifier constant of both scripts. -/
def MODEL_NAME : String := "all-MiniLM-L6-v2"

/-- Progress line printed before the model is constructed. -/
def initMsg : String :=
  "Initializing sentence transformer model: " ++ MODEL_NAME

/-- Progress line printed before the batched encode call. -/
def genMsg (n : Nat) : String :=
  "Generating embeddings for " ++ toString n ++ " abstracts"

/-- Completion notice printed after the encode call. -/
def doneMsg : String := "Embeddings generated successfully."

/-- Notice printed before the output file is written. -/
def saveMsg (p : String) : String :=
  "Saving augmented data with embeddings to: " ++ p

/-- Diagnostic for a missing input file. -/
def missingFileMsg (p : String) : String :=
  "Error: Input file not found at " ++ p

/-- Diagnostic for an empty or absent `papers` sequence. -/
def noPapersMsg : String := "Error: No papers found in the input file."

/-- Observable effects of one run of `create_and_save_embeddings`:
the lines printed to stdout, whether the sentence-transformer model was
constructed, whether its encode method was called, the JSON document
written to the output path (`none` when no output file is created), and
whether an unhandled exception propagated out of the function. -/
structure RunResult where
  printed : List String
  modelInitialized : Bool
  encodeCalled : Bool
  outputFile : Option JSON
  raised : Bool
deriving Repr

/-- `create_and_save_embeddings(input_path, output_path)`.
`input` is the parsed content of the file at `input_path`, or `none` when
opening raises `FileNotFoundError`.  `encode` is the external
sentence-transformer model with `normalize_embeddings=True`, a
deterministic map from one submitted text to one vector; the batched call
`model.encode(abstracts)` is its map over the selected texts.  Paths where
the Python code raises an unhandled exception (top level not a dict, a
truthy non-list `papers`, a record that is not a dict) set `raised`. -/
def create_and_save_embeddings (encode : JSON → List Int)
    (input_path output_path : String) (input : Option JSON) : RunResult :=
  match input with
  | none =>
      { printed := [missingFileMsg input_path], modelInitialized := false,
        encodeCalled := false, outputFile := none, raised := false }
  | some (JSON.obj top) =>
      let papers := (lookupField top "papers").getD (JSON.arr [])
      if truthy papers then
        match papers with
        | JSON.arr ps =>
          match selectTexts ps with
          | some abstracts =>
              let embeddings := abstracts.map encode
              let outPs := List.zipWith
                (fun p e => setFieldJ p "abstract_embedding"
                  (JSON.arr (e.map JSON.num)))
                ps embeddings
              { printed := [initMsg, genMsg ps.length, doneMsg,
                  saveMsg output_path],
                modelInitialized := true, encodeCalled := true,
                outputFile := some (JSON.obj [("papers", JSON.arr outPs)]),
                raised := false }
          | none =>
              { printed := [initMsg], modelInitialized := true,
                encodeCalled := false, outputFile := none, raised := true }
        | _ =>
              { printed := [initMsg], modelInitialized := true,
                encodeCalled := false, outputFile := none, raised := true }
      else
        { printed := [noPapersMsg], modelInitialized := false,
          encodeCalled := false, outputFile := none, raised := false }
  | some _ =>
      { printed := [], modelInitialized := false, encodeCalled := false,
        outputFile := none, raised := true }

/-- Exit status of a direct invocation of the script (`__main__`): a run
whose function returns normally exits with status zero; an unhandled
exception terminates the interpreter with a nonzero status. -/
def scriptExitStatus (r : RunResult) : Nat := if r.raised then 1 else 0

/-- Concatenation with the separator used by `json.dumps` default
formatting between array elements. -/
def joinComma : List String → String
  | [] => ""
  | [s] => s
  | s :: rest => s ++ ", " ++ joinComma rest

/-- `json.dumps` rendering of an array of numbers, the only JSON shape the
claims serialize.  The rendering of a single number is the library float
repr, passed in as `numStr`. -/
def dumpsNumArr (numStr : Int → String) (xs : List Int) : String :=
  "[" ++ joinComma (xs.map numStr) ++ "]"

/-- Observable effects of one run of `embed_query`: the lines printed to
stdout and stderr, and the process exit status. -/
structure QueryResult where
  stdout : List String
  stderr : List String
  exitCode : Nat
deriving Repr

/-- `embed_query()` from `embed_query.py`.  `argv` models `sys.argv`, whose
first element is the script name.  `encode` is the external model with
`normalize_embeddings=True`; `numStr` is the json library rendering of one
float.  With fewer than two argv entries the script prints an error to
stderr and exits 1; otherwise it embeds `sys.argv[1]` and prints the
vector as one JSON array on stdout. -/
def embed_query (encode : String → List Int) (numStr : Int → String)
    (argv : List String) : QueryResult :=
  if argv.length < 2 then
    { stdout := [],
      stderr := ["Error: No query provided. Please pass the query as an argument."],
      exitCode := 1 }
  else
    let query := argv.getD 1 ""
    { stdout := [dumpsNumArr numStr (encode query)],
      stderr := [], exitCode := 0 }

/-- Well-formedness of the `abstract` field of one Paper Record, per the
data model of the specification: `abstract`, when present, is a string
(json `null` is also tolerated, since Python decodes it to the same falsy
`None` an absent key yields). -/
def wfAbstract (fs : List (String × JSON)) : Bool :=
  match lookupField fs "abstract" with
  | some (JSON.str _) => true
  | some JSON.null => true
  | some _ => false
  | none => true

/-- Spec-side text selection, written from the words of the specification:
the `abstract` value if that key is present and its value is a non-empty
string; otherwise the `title` value; otherwise the empty string. -/
def specSelectedText (fs : List (String × JSON)) : JSON :=
  match lookupField fs "abstract" with
  | some (JSON.str s) =>
      if s = "" then (lookupField fs "title").getD (JSON.str "")
      else JSON.str s
  | _ => (lookupField fs "title").getD (JSON.str "")

/-- The records stored under the `papers` key of an output document. -/
def papersOfOutput : Option JSON → List JSON
  | some (JSON.obj [(k, JSON.arr ps)]) => if k = "papers" then ps else []
  | _ => []

/-- A JSON array of numbers, as a list of its numeric entries. -/
def jsonToNums : JSON → Option (List Int)
  | JSON.arr xs => xs.mapM (fun x => match x with
      | JSON.num i => some i
      | _ => none)
  | _ => none

/-- The serialized `abstract_embedding` arrays of a run, record by record,
rendered byte-for-byte by the json library (number rendering `numStr`). -/
def serializedEmbeddings (numStr : Int → String) (r : RunResult) :
    List (Option String) :=
  (papersOfOutput r.outputFile).map fun p =>
    match p with
    | JSON.obj fs =>
        (lookupField fs "abstract_embedding").bind fun v =>
          (jsonToNums v).map (dumpsNumArr numStr)
    | _ => none


theorem lookupField_setField_self (fs : List (String × JSON)) (key : String)
    (v : JSON) : lookupField (setField fs key v) key = some v := by
  induction fs with
  | nil => simp [setField, lookupField]
  | cons a fs ih =>
      obtain ⟨k, w⟩ := a
      by_cases hk : k = key
      · simp [setField, lookupField, hk]
      · simp [setField, lookupField, hk, ih]

theorem lookupField_setField_other (fs : List (String × JSON)) (key : String)
    (v : JSON) (k : String) (hk : k ≠ key) :
    lookupField (setField fs key v) k = lookupField fs k := by
  induction fs with
  | nil =>
      simp only [setField, lookupField]
      exact if_neg (fun h => hk h.symm)
  | cons a fs ih =>
      obtain ⟨ka, w⟩ := a
      by_cases hke : ka = key
      · subst hke
        simp only [setField, if_true]
        simp only [lookupField]
        rw [if_neg (fun h => hk h.symm), if_neg (fun h => hk h.symm)]
      · simp only [setField, if_neg hke, lookupField, ih]

theorem selectTexts_length (ps : List JSON) : ∀ ts, selectTexts ps = some ts →
    ts.length = ps.length := by
  induction ps with
  | nil =>
      intro ts h
      simp only [selectTexts, Option.some.injEq] at h
      subst h
      rfl
  | cons p ps ih =>
      intro ts h
      simp only [selectTexts] at h
      cases hsp : selectText p <;> rw [hsp] at h
      · exact absurd h (by simp)
      · cases hss : selectTexts ps <;> rw [hss] at h
        · exact absurd h (by simp)
        · rename_i t ts0
          simp only [Option.some.injEq] at h
          subst h
          simp [List.length_cons, ih ts0 hss]

theorem selectTexts_getElem? (ps : List JSON) : ∀ ts, selectTexts ps = some ts →
    ∀ i : Nat, ts[i]? = (ps[i]?).bind selectText := by
  induction ps with
  | nil =>
      intro ts h i
      simp only [selectTexts, Option.some.injEq] at h
      subst h
      simp
  | cons p ps ih =>
      intro ts h i
      simp only [selectTexts] at h
      cases hsp : selectText p <;> rw [hsp] at h
      · exact absurd h (by simp)
      · cases hss : selectTexts ps <;> rw [hss] at h
        · exact absurd h (by simp)
        · rename_i t ts0
          simp only [Option.some.injEq] at h
          subst h
          cases i with
          | zero => simp [hsp]
          | succ n => simp [ih ts0 hss n]

/-! ### Characterization of the three handled paths of the Batch Embedder -/

theorem run_missing (encode : JSON → List Int) (ip op : String) :
    create_and_save_embeddings encode ip op none =
      { printed := [missingFileMsg ip], modelInitialized := false,
        encodeCalled := false, outputFile := none, raised := false } := rfl

theorem run_noPapers (encode : JSON → List Int) (ip op : String)
    (top : List (String × JSON))
    (h : lookupField top "papers" = none ∨
      lookupField top "papers" = some (JSON.arr [])) :
    create_and_save_embeddings encode ip op (some (JSON.obj top)) =
      { printed := [noPapersMsg], modelInitialized := false,
        encodeCalled := false, outputFile := none, raised := false } := by
  rcases h with h | h <;>
    simp only [create_and_save_embeddings, h, Option.getD_some, Option.getD_none] <;>
    rfl

theorem run_success (encode : JSON → List Int) (ip op : String)
    (top : List (String × JSON)) (ps ts : List JSON)
    (hps : lookupField top "papers" = some (JSON.arr ps)) (hne : ps ≠ [])
    (hsel : selectTexts ps = some ts) :
    create_and_save_embeddings encode ip op (some (JSON.obj top)) =
      { printed := [initMsg, genMsg ps.length, doneMsg, saveMsg op],
        modelInitialized := true, encodeCalled := true,
        outputFile := some (JSON.obj [("papers", JSON.arr (List.zipWith
          (fun p e => setFieldJ p "abstract_embedding"
            (JSON.arr (e.map JSON.num)))
          ps (ts.map encode)))]),
        raised := false } := by
  have htr : truthy (JSON.arr ps) = true := by
    cases ps with
    | nil => exact absurd rfl hne
    | cons a l => rfl
  simp only [create_and_save_embeddings, hps, Option.getD_some, htr, if_true,
    hsel]

/-! ### Claim theorems -/

/-- C1: For every Paper Record processed by the Batch Embedder (its
`abstract`, when present, being a string per the data model, with json
`null` also tolerated), the text submitted for embedding is the record's
`abstract` value if that key is present and its value is a non-empty
string; otherwise the record's `title` value; otherwise the empty string.
Emptiness is exact string emptiness: no trimming is applied, so a
whitespace-only abstract is selected as-is. -/
theorem selected_text_follows_abstract_title_fallback
    (fs : List (String × JSON)) (h : wfAbstract fs = true) :
    selectText (JSON.obj fs) = some (specSelectedText fs) := by
  unfold wfAbstract at h
  cases hab : lookupField fs "abstract" with
  | none => simp [selectText, specSelectedText, hab, truthy]
  | some v =>
      rw [hab] at h
      simp only [selectText, specSelectedText, hab]
      cases v with
      | null => simp [truthy]
      | str s =>
          by_cases hs : s = ""
          · subst hs
            simp [truthy]
          · simp [truthy, hs]
      | bool b => exact absurd h (by simp)
      | num i => exact absurd h (by simp)
      | arr xs => exact absurd h (by simp)
      | obj gs => exact absurd h (by simp)

theorem selected_text_follows_abstract_title_fallback_witness :
    wfAbstract [("title", JSON.str "T"), ("abstract", JSON.str " ")] = true ∧
    selectText (JSON.obj [("title", JSON.str "T"), ("abstract", JSON.str " ")])
      = some (specSelectedText
          [("title", JSON.str "T"), ("abstract", JSON.str " ")]) :=
  ⟨rfl, selected_text_follows_abstract_title_fallback _ rfl⟩

/-- C2: For every non-empty Paper Collection, the output collection of the
Batch Embedder has the same number of records as the input, in the same
input order: output record `i` is input record `i` with the embedding
vector of selected text `i` attached as `abstract_embedding`; no records
are added, removed, or reordered. -/
theorem batch_output_same_count_order (encode : JSON → List Int)
    (ip op : String) (top : List (String × JSON)) (ps ts : List JSON)
    (hps : lookupField top "papers" = some (JSON.arr ps)) (hne : ps ≠ [])
    (hsel : selectTexts ps = some ts) :
    ∃ outPs,
      (create_and_save_embeddings encode ip op
          (some (JSON.obj top))).outputFile
        = some (JSON.obj [("papers", JSON.arr outPs)]) ∧
      outPs.length = ps.length ∧
      ∀ i : Nat, outPs[i]? = (ps[i]?).bind fun p => (ts[i]?).map fun t =>
        setFieldJ p "abstract_embedding" (JSON.arr ((encode t).map JSON.num)) := by
  rw [run_success encode ip op top ps ts hps hne hsel]
  refine ⟨_, rfl, ?_, ?_⟩
  · rw [List.length_zipWith, List.length_map,
      selectTexts_length ps ts hsel, min_self]
  · intro i
    rw [List.getElem?_zipWith]
    rw [List.getElem?_map]
    cases hpi : ps[i]? with
    | none => cases ts[i]? <;> rfl
    | some p => cases ts[i]? <;> rfl

theorem batch_output_same_count_order_witness :
    lookupField [("papers", JSON.arr [JSON.obj [("title", JSON.str "T")]])]
        "papers" = some (JSON.arr [JSON.obj [("title", JSON.str "T")]]) ∧
    ∃ outPs,
      (create_and_save_embeddings (fun _ => [3]) "in.json" "out.json"
          (some (JSON.obj [("papers",
            JSON.arr [JSON.obj [("title", JSON.str "T")]])]))).outputFile
        = some (JSON.obj [("papers", JSON.arr outPs)]) ∧
      outPs.length = [JSON.obj [("title", JSON.str "T")]].length ∧
      ∀ i : Nat, outPs[i]?
        = (([JSON.obj [("title", JSON.str "T")]][i]?).bind fun p =>
            (([JSON.str "T"][i]?).map fun t =>
              setFieldJ p "abstract_embedding"
                (JSON.arr (((fun _ => [3]) t).map JSON.num)))) :=
  ⟨rfl, batch_output_same_count_order (fun _ => [3]) "in.json" "out.json"
    [("papers", JSON.arr [JSON.obj [("title", JSON.str "T")]])]
    [JSON.obj [("title", JSON.str "T")]] [JSON.str "T"]
    rfl (by simp) rfl⟩

/-- C5: In a successful Batch Embedder run the top-level output is an
object with the single key `papers`, and every output record agrees with
its input record on every field other than `abstract_embedding`, while
`abstract_embedding` is present (set to the embedding of the selected
text): the record is passed through untouched except for gaining that
single field. -/
theorem batch_records_unchanged_except_embedding (encode : JSON → List Int)
    (ip op : String) (top : List (String × JSON)) (ps ts : List JSON)
    (hps : lookupField top "papers" = some (JSON.arr ps)) (hne : ps ≠ [])
    (hsel : selectTexts ps = some ts) :
    ∃ outPs,
      (create_and_save_embeddings encode ip op
          (some (JSON.obj top))).outputFile
        = some (JSON.obj [("papers", JSON.arr outPs)]) ∧
      ∀ (i : Nat) (fsr : List (String × JSON)),
        ps[i]? = some (JSON.obj fsr) →
        ∃ outFs, outPs[i]? = some (JSON.obj outFs) ∧
          (∃ v, lookupField outFs "abstract_embedding" = some v) ∧
          ∀ k, k ≠ "abstract_embedding" →
            lookupField outFs k = lookupField fsr k := by
  rw [run_success encode ip op top ps ts hps hne hsel]
  refine ⟨_, rfl, ?_⟩
  intro i fsr hpi
  have hti : ts[i]? = (ps[i]?).bind selectText :=
    selectTexts_getElem? ps ts hsel i
  rw [hpi] at hti
  simp only [Option.some_bind] at hti
  rw [List.getElem?_zipWith, List.getElem?_map, hpi, hti]
  simp only [selectText, Option.map_some']
  refine ⟨_, rfl, ⟨_, lookupField_setField_self fsr "abstract_embedding" _⟩, ?_⟩
  intro k hk
  exact lookupField_setField_other fsr "abstract_embedding" _ k hk

theorem batch_records_unchanged_except_embedding_witness :
    ∃ outPs,
      (create_and_save_embeddings (fun _ => [3]) "in.json" "out.json"
          (some (JSON.obj [("papers",
            JSON.arr [JSON.obj [("title", JSON.str "T"),
              ("year", JSON.num 2020)]])]))).outputFile
        = some (JSON.obj [("papers", JSON.arr outPs)]) ∧
      ∀ (i : Nat) (fsr : List (String × JSON)),
        [JSON.obj [("title", JSON.str "T"), ("year", JSON.num 2020)]][i]?
          = some (JSON.obj fsr) →
        ∃ outFs, outPs[i]? = some (JSON.obj outFs) ∧
          (∃ v, lookupField outFs "abstract_embedding" = some v) ∧
          ∀ k, k ≠ "abstract_embedding" →
            lookupField outFs k = lookupField fsr k :=
  batch_records_unchanged_except_embedding (fun _ => [3]) "in.json"
    "out.json"
    [("papers", JSON.arr [JSON.obj [("title", JSON.str "T"),
      ("year", JSON.num 2020)]])]
    [JSON.obj [("title", JSON.str "T"), ("year", JSON.num 2020)]]
    [JSON.str "T"] rfl (by simp) rfl

/-- C3: If the input file does not exist, or the input parses to an object
whose `papers` key is absent or maps to an empty sequence, the Batch
Embedder prints a human-readable diagnostic, terminates cleanly without
raising, and writes no output file at all. -/
theorem batch_failure_reports_and_writes_no_output (encode : JSON → List Int)
    (ip op : String) (input : Option JSON) (top : List (String × JSON))
    (h : input = none ∨ (input = some (JSON.obj top) ∧
      (lookupField top "papers" = none ∨
       lookupField top "papers" = some (JSON.arr [])))) :
    ((create_and_save_embeddings encode ip op input).printed
        = [missingFileMsg ip] ∨
     (create_and_save_embeddings encode ip op input).printed
        = [noPapersMsg]) ∧
    (create_and_save_embeddings encode ip op input).raised = false ∧
    (create_and_save_embeddings encode ip op input).outputFile = none := by
  rcases h with h | ⟨h, hp⟩
  · subst h
    rw [run_missing]
    exact ⟨Or.inl rfl, rfl, rfl⟩
  · subst h
    rw [run_noPapers encode ip op top hp]
    exact ⟨Or.inr rfl, rfl, rfl⟩

theorem batch_failure_reports_and_writes_no_output_witness :
    ((create_and_save_embeddings (fun _ => [0]) "data/processed/papers.json"
        "data/processed/papers_with_embeddings.json" none).printed
        = [missingFileMsg "data/processed/papers.json"] ∨
     (create_and_save_embeddings (fun _ => [0]) "data/processed/papers.json"
        "data/processed/papers_with_embeddings.json" none).printed
        = [noPapersMsg]) ∧
    (create_and_save_embeddings (fun _ => [0]) "data/processed/papers.json"
        "data/processed/papers_with_embeddings.json" none).raised = false ∧
    (create_and_save_embeddings (fun _ => [0]) "data/processed/papers.json"
        "data/processed/papers_with_embeddings.json" none).outputFile
        = none :=
  batch_failure_reports_and_writes_no_output (fun _ => [0])
    "data/processed/papers.json" "data/processed/papers_with_embeddings.json"
    none [] (Or.inl rfl)

/-- C4: On the two named failure conditions (missing input file; empty or
absent `papers`), `create_and_save_embeddings` returns without raising, so
a direct invocation of the script terminates with exit status zero despite
the logical failure. -/
theorem batch_failure_exit_status_zero (encode : JSON → List Int)
    (ip op : String) (input : Option JSON) (top : List (String × JSON))
    (h : input = none ∨ (input = some (JSON.obj top) ∧
      (lookupField top "papers" = none ∨
       lookupField top "papers" = some (JSON.arr [])))) :
    (create_and_save_embeddings encode ip op input).raised = false ∧
    scriptExitStatus (create_and_save_embeddings encode ip op input) = 0 := by
  rcases h with h | ⟨h, hp⟩
  · subst h
    rw [run_missing]
    exact ⟨rfl, rfl⟩
  · subst h
    rw [run_noPapers encode ip op top hp]
    exact ⟨rfl, rfl⟩

theorem batch_failure_exit_status_zero_witness :
    (create_and_save_embeddings (fun _ => [0]) "data/processed/papers.json"
        "data/processed/papers_with_embeddings.json"
        (some (JSON.obj [("papers", JSON.arr [])]))).raised = false ∧
    scriptExitStatus (create_and_save_embeddings (fun _ => [0])
        "data/processed/papers.json"
        "data/processed/papers_with_embeddings.json"
        (some (JSON.obj [("papers", JSON.arr [])]))) = 0 :=
  batch_failure_exit_status_zero (fun _ => [0]) "data/processed/papers.json"
    "data/processed/papers_with_embeddings.json"
    (some (JSON.obj [("papers", JSON.arr [])]))
    [("papers", JSON.arr [])] (Or.inr ⟨rfl, Or.inr rfl⟩)

/-- C9: On the two reported failure paths (missing input file; empty or
absent `papers`), `create_and_save_embeddings` returns before the
sentence-transformer model is constructed: no model initialization and no
embedding call occurs. -/
theorem batch_failure_no_model_init (encode : JSON → List Int)
    (ip op : String) (input : Option JSON) (top : List (String × JSON))
    (h : input = none ∨ (input = some (JSON.obj top) ∧
      (lookupField top "papers" = none ∨
       lookupField top "papers" = some (JSON.arr [])))) :
    (create_and_save_embeddings encode ip op input).modelInitialized = false ∧
    (create_and_save_embeddings encode ip op input).encodeCalled = false := by
  rcases h with h | ⟨h, hp⟩
  · subst h
    rw [run_missing]
    exact ⟨rfl, rfl⟩
  · subst h
    rw [run_noPapers encode ip op top hp]
    exact ⟨rfl, rfl⟩

theorem batch_failure_no_model_init_witness :
    (create_and_save_embeddings (fun _ => [0]) "data/processed/papers.json"
        "data/processed/papers_with_embeddings.json"
        (some (JSON.obj [("papers", JSON.arr [])]))).modelInitialized
        = false ∧
    (create_and_save_embeddings (fun _ => [0]) "data/processed/papers.json"
        "data/processed/papers_with_embeddings.json"
        (some (JSON.obj [("papers", JSON.arr [])]))).encodeCalled = false :=
  batch_failure_no_model_init (fun _ => [0]) "data/processed/papers.json"
    "data/processed/papers_with_embeddings.json"
    (some (JSON.obj [("papers", JSON.arr [])]))
    [("papers", JSON.arr [])] (Or.inr ⟨rfl, Or.inr rfl⟩)

/-- C6: Invoked with no command-line argument (argv holds only the script
name), the Query Embedder writes a usage message to the error stream,
writes nothing to standard output, and exits with status 1; with an
argument supplied it exits with status 0. -/
theorem query_missing_argument_exits_one (encode : String → List Int)
    (numStr : Int → String) (prog : String) :
    embed_query encode numStr [prog] =
      { stdout := [],
        stderr := ["Error: No query provided. Please pass the query as an argument."],
        exitCode := 1 } ∧
    ∀ (q : String) (rest : List String),
      (embed_query encode numStr (prog :: q :: rest)).exitCode = 0 := by
  refine ⟨rfl, ?_⟩
  intro q rest
  rfl

theorem noNewline_joinComma : ∀ (l : List String),
    (∀ s ∈ l, '\n' ∉ s.data) → '\n' ∉ (joinComma l).data
  | [], _ => by simp [joinComma]
  | [s], h => by simpa [joinComma] using h s (by simp)
  | s :: s2 :: r2, h => by
      have h1 : '\n' ∉ s.data := h s (by simp)
      have h2 : '\n' ∉ (joinComma (s2 :: r2)).data :=
        noNewline_joinComma (s2 :: r2) (fun x hx => h x (by simp [hx]))
      simp only [joinComma, String.data_append, List.mem_append]
      intro hc
      rcases hc with (hc | hc) | hc
      · exact h1 hc
      · exact absurd hc (by decide)
      · exact h2 hc

theorem noNewline_dumpsNumArr (numStr : Int → String) (xs : List Int)
    (h : ∀ i, '\n' ∉ (numStr i).data) :
    '\n' ∉ (dumpsNumArr numStr xs).data := by
  have hj : '\n' ∉ (joinComma (xs.map numStr)).data := by
    apply noNewline_joinComma
    intro s hs
    rcases List.mem_map.mp hs with ⟨i, _, rfl⟩
    exact h i
  unfold dumpsNumArr
  simp only [String.data_append, List.mem_append]
  intro hc
  rcases hc with (hc | hc) | hc
  · exact absurd hc (by decide)
  · exact hj hc
  · exact absurd hc (by decide)

/-- C7: When invoked with a query argument, the Query Embedder's standard
output on success is exactly one line, containing a single JSON array of
numbers — the normalized embedding of `sys.argv[1]` rendered by the json
library — with no wrapping object, nothing else on stdout, and no newline
inside the printed string (provided the library renders each number
without a newline, which `json.dumps` does). -/
theorem query_prints_single_line_json_array (encode : String → List Int)
    (numStr : Int → String) (argv : List String)
    (hlen : 2 ≤ argv.length) (hnl : ∀ i, '\n' ∉ (numStr i).data) :
    (embed_query encode numStr argv).stdout
        = [dumpsNumArr numStr (encode (argv.getD 1 ""))] ∧
    (embed_query encode numStr argv).stderr = [] ∧
    '\n' ∉ (dumpsNumArr numStr (encode (argv.getD 1 ""))).data := by
  have hcond : ¬ argv.length < 2 := not_lt.mpr hlen
  refine ⟨?_, ?_, noNewline_dumpsNumArr numStr _ hnl⟩
  · simp [embed_query, hcond]
  · simp [embed_query, hcond]

theorem query_prints_single_line_json_array_witness :
    2 ≤ (["embed_query.py", "semantic search"] : List String).length ∧
    (embed_query (fun _ => [3, 1]) (fun _ => "0")
        ["embed_query.py", "semantic search"]).stdout
      = [dumpsNumArr (fun _ => "0")
          ((fun _ => [3, 1]) (["embed_query.py", "semantic search"].getD 1 ""))] ∧
    (embed_query (fun _ => [3, 1]) (fun _ => "0")
        ["embed_query.py", "semantic search"]).stderr = [] ∧
    '\n' ∉ (dumpsNumArr (fun _ => "0")
        ((fun _ => [3, 1]) (["embed_query.py", "semantic search"].getD 1 ""))).data :=
  ⟨by decide, query_prints_single_line_json_array (fun _ => [3, 1])
    (fun _ => "0") ["embed_query.py", "semantic search"] (by decide)
    (fun i => (by decide : '\n' ∉ ("0" : String).data))⟩

/-- C10: Invoked with two or more command-line arguments, the Query
Embedder embeds only the first argument (`sys.argv[1]`) and silently
ignores every subsequent one: the run is identical to a run on the first
argument alone. -/
theorem query_ignores_extra_arguments (encode : String → List Int)
    (numStr : Int → String) (prog arg1 : String) (rest : List String) :
    embed_query encode numStr (prog :: arg1 :: rest)
        = embed_query encode numStr [prog, arg1] ∧
    (embed_query encode numStr (prog :: arg1 :: rest)).stdout
        = [dumpsNumArr numStr (encode arg1)] := by
  exact ⟨rfl, rfl⟩

/-- C8: With the embedding model a deterministic function of its input
texts, two Batch Embedder runs on the same unmodified input produce the
same run result, and in particular byte-for-byte-equal serialized
`abstract_embedding` arrays. -/
theorem batch_rerun_embeddings_identical (encode₁ encode₂ : JSON → List Int)
    (ip op : String) (input₁ input₂ : Option JSON) (numStr : Int → String)
    (he : ∀ t, encode₁ t = encode₂ t) (hi : input₁ = input₂) :
    create_and_save_embeddings encode₁ ip op input₁
      = create_and_save_embeddings encode₂ ip op input₂ ∧
    serializedEmbeddings numStr
        (create_and_save_embeddings encode₁ ip op input₁)
      = serializedEmbeddings numStr
          (create_and_save_embeddings encode₂ ip op input₂) := by
  have hee : encode₁ = encode₂ := funext he
  subst hee
  subst hi
  exact ⟨rfl, rfl⟩

theorem batch_rerun_embeddings_identical_witness :
    create_and_save_embeddings (fun _ => [7]) "in.json" "out.json"
        (some (JSON.obj [("papers",
          JSON.arr [JSON.obj [("title", JSON.str "T")]])]))
      = create_and_save_embeddings (fun _ => [7]) "in.json" "out.json"
        (some (JSON.obj [("papers",
          JSON.arr [JSON.obj [("title", JSON.str "T")]])])) ∧
    serializedEmbeddings (fun _ => "7.0")
        (create_and_save_embeddings (fun _ => [7]) "in.json" "out.json"
          (some (JSON.obj [("papers",
            JSON.arr [JSON.obj [("title", JSON.str "T")]])])))
      = serializedEmbeddings (fun _ => "7.0")
          (create_and_save_embeddings (fun _ => [7]) "in.json" "out.json"
            (some (JSON.obj [("papers",
              JSON.arr [JSON.obj [("title", JSON.str "T")]])]))) :=
  batch_rerun_embeddings_identical (fun _ => [7]) (fun _ => [7]) "in.json"
    "out.json"
    (some (JSON.obj [("papers", JSON.arr [JSON.obj [("title", JSON.str "T")]])]))
    (some (JSON.obj [("papers", JSON.arr [JSON.obj [("title", JSON.str "T")]])]))
    (fun _ => "7.0") (fun _ => rfl) rfl
